import Mathlib

/-!
Verification of the MPO multilingual prompt optimizer core against its
specification.  The Python sources are shallowly embedded: text is `List Char`,
raised exceptions are `Except String-like` errors, ambient time is passed in
explicitly, and the LLM backend is a function returning `Except`, so that a
provider that always raises is a definable value.  Rational numbers stand in
for Python floats; every float produced by the embedded code paths is a small
dyadic/decimal value on which the two semantics agree.  Character-level
`lower()` is ASCII `Char.toLower`; the inputs exercised here are unaffected by
the difference to Python's full Unicode case mapping.
-/

/-- Text is embedded as a list of characters. -/
abbrev Str := List Char

/-- Per-character lower-casing, modelling Python `str.lower` (ASCII fragment). -/
def pyLower (c : Char) : Char := c.toLower

/-- Whole-string lower-casing. -/
def str_lower (s : Str) : Str := s.map pyLower

/-- Python whitespace characters recognised by `str.strip`. -/
def isPySpace (c : Char) : Bool :=
  c = ' ' || c = '\t' || c = '\n' || c = '\x0d' || c = '\x0b' || c = '\x0c'

/-- Python `str.strip()`: remove leading and trailing whitespace. -/
def pyStrip (s : Str) : Str :=
  ((s.dropWhile isPySpace).reverse.dropWhile isPySpace).reverse

/-- Scanner for Python `str.replace` with a non-empty pattern `p :: ps`:
leftmost, non-overlapping matches, scanning left to right and skipping the
replaced region. -/
def replaceAux (p : Char) (ps rep : Str) : Str → Str
  | [] => []
  | c :: rest =>
    if (p :: ps).isPrefixOf (c :: rest) then rep ++ replaceAux p ps rep (rest.drop ps.length)
    else c :: replaceAux p ps rep rest
termination_by s => s.length
decreasing_by
  · simp only [List.length_cons, List.length_drop]
    omega
  · simp only [List.length_cons]
    omega

/-- Python `s.replace(pat, rep)`.  The empty-pattern case is never exercised by
the embedded code (patterns are always brace-delimited tokens). -/
def pyReplace (s pat rep : Str) : Str :=
  match pat with
  | [] => s
  | p :: ps => replaceAux p ps rep s

/-- Python `{**a, **b}`: keys of `a` in order (with values overridden by `b`
where present), followed by keys of `b` not in `a`, in order. -/
def pyDictMerge (a b : List (Str × Str)) : List (Str × Str) :=
  a.map (fun kv => (kv.1, (List.lookup kv.1 b).getD kv.2)) ++
    b.filter (fun kv => (List.lookup kv.1 a).isNone)

/-- Round-half-to-even on rationals, the tie rule of Python `round`. -/
def roundHalfToEven (q : ℚ) : ℤ :=
  let n := Rat.floor q
  if q - n < 1/2 then n else if 1/2 < q - n then n + 1 else if n % 2 = 0 then n else n + 1

/-- Python `round(q, d)` on exactly represented values. -/
def pyRoundTo (q : ℚ) (d : Nat) : ℚ :=
  ((roundHalfToEven (q * 10 ^ d) : ℤ) : ℚ) / 10 ^ d

/-! ## Data model (`src/mpo/core/prompt.py`) -/

/-- Categories of prompt use cases (`PromptDomain`). -/
inductive PromptDomain
  | business
  | technical
  | creative
  | persuasive
  | instructional
deriving DecidableEq

/-- String value of a `PromptDomain` member. -/
def PromptDomain.value : PromptDomain → Str
  | .business => "business".data
  | .technical => "technical".data
  | .creative => "creative".data
  | .persuasive => "persuasive".data
  | .instructional => "instructional".data

/-- Formality levels for cultural adaptation (`FormalityLevel`). -/
inductive FormalityLevel
  | casual
  | neutral
  | formal
deriving DecidableEq

/-- String value of a `FormalityLevel` member. -/
def FormalityLevel.value : FormalityLevel → Str
  | .casual => "casual".data
  | .neutral => "neutral".data
  | .formal => "formal".data

/-- Base prompt template (`PromptTemplate`).  `metadata` is free-form and is
never read by the code in scope; it is carried as an association list. -/
structure PromptTemplate where
  id : Str
  content : Str
  domain : PromptDomain
  placeholders : List (Str × Str) := []
  description : Str := []
  metadata : List (Str × Str) := []
deriving DecidableEq

/-- Python `PromptTemplate.render(**kwargs)`: sequentially `str.replace` each
`{key}` with its value, caller overrides taking precedence over defaults. -/
def PromptTemplate.render (t : PromptTemplate) (kwargs : List (Str × Str)) : Str :=
  (pyDictMerge t.placeholders kwargs).foldl
    (fun rendered kv => pyReplace rendered ('{' :: (kv.1 ++ ['}'])) kv.2) t.content

/-- Culturally adapted version of a prompt template (`PromptVariant`). -/
structure PromptVariant where
  template_id : Str
  language : Str
  formality : FormalityLevel
  adapted_content : Str
  adaptation_notes : Str := []
  timestamp : Str := []
  metadata : List (Str × Str) := []
deriving DecidableEq

/-- Response from an LLM for a given prompt variant (`LLMResponse`). -/
structure LLMResponse where
  variant_id : Str
  content : Str
  model : Str
  tokens_input : Nat := 0
  tokens_output : Nat := 0
  timestamp : Str := []
  metadata : List (Str × Str) := []
deriving DecidableEq

/-! ## Provider interface (`src/mpo/providers/base.py`) -/

/-- Configuration for LLM text generation (`GenerationConfig`). -/
structure GenerationConfig where
  temperature : ℚ := 7/10
  max_tokens : Nat := 1024
  top_p : ℚ := 1
  stop_sequences : Option (List Str) := none

/-- Result dictionary returned by a successful `generate` call.
`metadata` is `none` when the provider omitted the key. -/
structure GenerateResult where
  content : Str
  tokens_input : Nat
  tokens_output : Nat
  model : Str
  timestamp : Str
  metadata : Option (List (Str × Str))

/-- An LLM provider is its `generate` method; an `Except.error` models a
raised exception. -/
structure AbstractLLMProvider where
  generate : Str → GenerationConfig → Except Str GenerateResult

/-! ## Adaptation configuration (`src/mpo/core/adaptation_config.py`) -/

/-- Strategy for applying cultural adaptations (`AdaptationStrategy`). -/
inductive AdaptationStrategy
  | programmatic_only
  | hybrid_sequential
  | llm_only
deriving DecidableEq

/-- String value of an `AdaptationStrategy` member. -/
def AdaptationStrategy.value : AdaptationStrategy → Str
  | .programmatic_only => "programmatic_only".data
  | .hybrid_sequential => "hybrid_sequential".data
  | .llm_only => "llm_only".data

/-- Python `AdaptationStrategy(s)`: enum lookup by value, raising `ValueError`
for an unknown value string. -/
def AdaptationStrategy.ofValue (s : Str) : Except Str AdaptationStrategy :=
  if s = "programmatic_only".data then .ok .programmatic_only
  else if s = "hybrid_sequential".data then .ok .hybrid_sequential
  else if s = "llm_only".data then .ok .llm_only
  else .error (s ++ " is not a valid AdaptationStrategy".data)

/-- Raw `llm_adaptation` dictionary from configuration, before parsing.
`transformation_instructions` is free-form and never read by the code in
scope, so it is not carried. -/
structure LLMAdaptationRaw where
  enabled : Option Bool := none
  strategy : Option Str := none
  llm_system_prompt : Option Str := none
  temperature : Option ℚ := none
  max_tokens : Option Nat := none

/-- Parsed configuration for LLM-based cultural adaptation
(`LLMAdaptationConfig`). -/
structure LLMAdaptationConfig where
  enabled : Bool
  strategy : AdaptationStrategy
  llm_system_prompt : Str
  temperature : ℚ
  max_tokens : Nat

/-- Python `LLMAdaptationConfig.from_dict`. -/
def LLMAdaptationConfig.from_dict (d : LLMAdaptationRaw) : Except Str LLMAdaptationConfig := do
  let strat ← AdaptationStrategy.ofValue (d.strategy.getD ("hybrid_sequential".data))
  .ok { enabled := d.enabled.getD false
        strategy := strat
        llm_system_prompt := d.llm_system_prompt.getD []
        temperature := d.temperature.getD (3/10)
        max_tokens := d.max_tokens.getD 2048 }

/-! ## Adapter configuration dictionary (`languages.yaml` shape) -/

/-- Per-formality cultural parameters: `{pronoun, greeting, closing}`. -/
structure FormalityParams where
  pronoun : Option Str := none
  greeting : Option Str := none
  closing : Option Str := none

/-- The `cultural_params` sub-dictionary. -/
structure CulturalParams where
  formality_levels : Option (List (Str × FormalityParams)) := none

/-- A language configuration dictionary as consumed by `CulturalAdapter`. -/
structure AdapterConfig where
  code : Option Str := none
  name : Option Str := none
  cultural_params : Option CulturalParams := none
  llm_adaptation : Option LLMAdaptationRaw := none

/-! ## Cultural adapter (`src/mpo/core/adapter.py` and `src/mpo/adapters/`) -/

/-- The closed set of language strategies (`EnglishAdapter`, `GermanAdapter`,
`SpanishAdapter`), embedded as a dispatch tag per the per-language
subclassing. -/
inductive AdapterLanguage
  | en
  | de
  | es
deriving DecidableEq

/-- An initialised adapter instance: dispatch tag plus the state set up by
`CulturalAdapter.__init__`. -/
structure CulturalAdapter where
  lang : AdapterLanguage
  config : AdapterConfig
  provider : Option AbstractLLMProvider
  llm_adaptation_config : Option LLMAdaptationConfig

/-- Python `self.language_code = config.get("code", "unknown")`. -/
def CulturalAdapter.language_code (a : CulturalAdapter) : Str :=
  a.config.code.getD ("unknown".data)

/-- Python `CulturalAdapter.__init__`: parse the `llm_adaptation` block when
its `enabled` entry is truthy, otherwise store `None`. -/
def cultural_adapter_init (lang : AdapterLanguage) (config : AdapterConfig)
    (provider : Option AbstractLLMProvider) : Except Str CulturalAdapter :=
  match config.llm_adaptation with
  | none => .ok ⟨lang, config, provider, none⟩
  | some raw =>
    if raw.enabled.getD false then do
      let c ← LLMAdaptationConfig.from_dict raw
      .ok ⟨lang, config, provider, some c⟩
    else .ok ⟨lang, config, provider, none⟩

/-- Python `CulturalAdapter._get_greeting`: nested `.get` chain with empty
defaults. -/
def CulturalAdapter._get_greeting (a : CulturalAdapter) (formality : FormalityLevel) : Str :=
  match a.config.cultural_params with
  | none => []
  | some cp =>
    match cp.formality_levels with
    | none => []
    | some fl =>
      match List.lookup formality.value fl with
      | none => []
      | some params => params.greeting.getD []

/-- Python `CulturalAdapter._get_closing`. -/
def CulturalAdapter._get_closing (a : CulturalAdapter) (formality : FormalityLevel) : Str :=
  match a.config.cultural_params with
  | none => []
  | some cp =>
    match cp.formality_levels with
    | none => []
    | some fl =>
      match List.lookup formality.value fl with
      | none => []
      | some params => params.closing.getD []

/-- Python `CulturalAdapter._get_pronoun`. -/
def CulturalAdapter._get_pronoun (a : CulturalAdapter) (formality : FormalityLevel) : Str :=
  match a.config.cultural_params with
  | none => []
  | some cp =>
    match cp.formality_levels with
    | none => []
    | some fl =>
      match List.lookup formality.value fl with
      | none => []
      | some params => params.pronoun.getD []

/-- Python `CulturalAdapter._should_use_llm_adaptation`. -/
def CulturalAdapter._should_use_llm_adaptation (a : CulturalAdapter) : Bool :=
  match a.llm_adaptation_config with
  | some c => c.enabled && a.provider.isSome
  | none => false

/-- Python `CulturalAdapter._get_strategy_name`: the configured strategy when
an LLM configuration exists, else `programmatic_only`. -/
def CulturalAdapter._get_strategy_name (a : CulturalAdapter) : Str :=
  match a.llm_adaptation_config with
  | some c => c.strategy.value
  | none => AdaptationStrategy.programmatic_only.value

/-- Python `CulturalAdapter._build_adaptation_notes`. -/
def CulturalAdapter._build_adaptation_notes (a : CulturalAdapter) (mode : Str)
    (template : PromptTemplate) (formality : FormalityLevel) : Str :=
  if mode = "hybrid".data then
    "Hybrid adaptation (".data ++ a.language_code ++
      "): Programmatic structure + LLM cultural refinement. Domain: ".data ++
      template.domain.value ++ ", Formality: ".data ++ formality.value
  else if mode = "programmatic_fallback".data then
    "Programmatic-only adaptation (".data ++ a.language_code ++
      "): LLM refinement failed, using rule-based only. Domain: ".data ++
      template.domain.value ++ ", Formality: ".data ++ formality.value
  else
    "Programmatic-only adaptation (".data ++ a.language_code ++
      "): Rule-based cultural transformations. Domain: ".data ++
      template.domain.value ++ ", Formality: ".data ++ formality.value

/-! ## English adapter (`src/mpo/adapters/en_adapter.py`) -/

/-- Python `content.startswith(("Dear", "Hello", "Greetings"))`. -/
def en_formal_marker_start (content : Str) : Prop :=
  ("Dear".data) <+: content ∨ ("Hello".data) <+: content ∨ ("Greetings".data) <+: content

instance (content : Str) : Decidable (en_formal_marker_start content) := by
  unfold en_formal_marker_start
  infer_instance

/-- Python `EnglishAdapter._apply_programmatic_adaptations`.  The formal branch
evaluates `content.lower()[0]`, which raises `IndexError` on empty content;
that exception is the `Except.error` case. -/
def EnglishAdapter._apply_programmatic_adaptations (template : PromptTemplate)
    (formality : FormalityLevel) : Except Str Str :=
  let content := template.content
  match formality with
  | .formal =>
    if en_formal_marker_start content then .ok content
    else
      match str_lower content with
      | [] => .error ("string index out of range".data)
      | c0 :: _ => .ok ("Please ".data ++ c0 :: content.drop 1)
  | .casual =>
    if ("Please ".data) <+: content then .ok (content.drop 7) else .ok content
  | .neutral => .ok content

/-! ## German adapter (`src/mpo/adapters/de_adapter.py`) -/

/-- Python `GermanAdapter._apply_programmatic_adaptations`: greeting,
context-setting preamble, original content, closing, joined by `"".join`. -/
def GermanAdapter._apply_programmatic_adaptations (a : CulturalAdapter)
    (template : PromptTemplate) (formality : FormalityLevel) : Str :=
  let greeting := CulturalAdapter._get_greeting a formality
  let closing := CulturalAdapter._get_closing a formality
  (if greeting.isEmpty then [] else greeting) ++
    (match formality with
      | .formal => "\nIch möchte Sie um Folgendes bitten:".data
      | .neutral => "\nIch bitte um Folgendes:".data
      | .casual => "\nKurze Frage:".data) ++
    ('\n' :: template.content) ++
    (if closing.isEmpty then [] else '\n' :: '\n' :: closing)

/-! ## Spanish adapter (`src/mpo/adapters/es_adapter.py`) -/

/-- Python `SpanishAdapter._apply_programmatic_adaptations`: warm greeting,
relational preamble, original content, gratitude line (formal/neutral),
closing. -/
def SpanishAdapter._apply_programmatic_adaptations (a : CulturalAdapter)
    (template : PromptTemplate) (formality : FormalityLevel) : Str :=
  let greeting := CulturalAdapter._get_greeting a formality
  let closing := CulturalAdapter._get_closing a formality
  (if greeting.isEmpty then [] else greeting) ++
    (match formality with
      | .formal =>
        "\n\nEspero que se encuentre bien.".data ++
          "\nMe dirijo a usted para solicitar lo siguiente:".data
      | .neutral =>
        "\n\nEspero que esté bien.".data ++
          "\nLe escribo para pedirle lo siguiente:".data
      | .casual => "\n\n¿Qué tal? Te escribo porque:".data) ++
    ('\n' :: template.content) ++
    (match formality with
      | .formal => "\n\nAgradezco de antemano su atención y tiempo.".data
      | .neutral => "\n\nAgradezco de antemano su atención y tiempo.".data
      | .casual => []) ++
    (if closing.isEmpty then [] else '\n' :: closing)

/-! ## LLM refinement prompt builders (Phase 2 meta-prompts) -/

/-- Python `EnglishAdapter._build_llm_adaptation_prompt`. -/
def EnglishAdapter._build_llm_adaptation_prompt (programmatic_output : Str)
    (template : PromptTemplate) (formality : FormalityLevel) : Str :=
  "You are an American English communication expert. Refine the provided text to match American English professional communication norms.\n\nKEY AMERICAN ENGLISH COMMUNICATION PRINCIPLES:\n- Directness: Get to the point quickly. Americans value efficiency and clarity.\n- Task-oriented: Focus on objectives and outcomes rather than process or relationship.\n- Casual professionalism: Professional yet approachable. Avoid overly formal language.\n- Action-focused: Use active voice and clear calls-to-action.\n- Conciseness: Respect time - be brief but complete.\n- Individualism: Emphasize personal responsibility and individual contributions.\n\nTASK:\n1. Maintain the core message and intent\n2. Adjust tone to match ".data ++
    formality.value ++
    " formality level:\n   - Formal: Professional but not stiff. Clear and respectful.\n   - Neutral: Standard professional communication. Balanced and clear.\n   - Casual: Conversational yet professional. Friendly and approachable.\n3. Ensure language is appropriate for ".data ++
    template.domain.value ++
    " domain\n4. Keep all \x7bplaceholder\x7d variables unchanged in \x7bcurly braces\x7d\n5. Use active voice where possible\n6. Remove unnecessary words or phrases\n7. Ensure American English spelling and idioms (not British)\n\nContext:\n- Domain: ".data ++
    template.domain.value ++ "\n- Formality: ".data ++ formality.value ++
    "\n- Audience: American English speakers".data ++
    "\n\n".data ++
    "Refine this text for American English professional communication:\n\nINPUT:\n".data ++
    programmatic_output ++
    "\n\nOUTPUT (refined for tone, clarity, and domain appropriateness):".data

/-- Python `GermanAdapter._build_llm_adaptation_prompt`. -/
def GermanAdapter._build_llm_adaptation_prompt (a : CulturalAdapter)
    (programmatic_output : Str) (template : PromptTemplate)
    (formality : FormalityLevel) : Str :=
  let pronoun := CulturalAdapter._get_pronoun a formality
  "You are a German cultural communication expert. Transform the provided text to match German cultural norms while preserving the existing structure.\n\nKEY GERMAN CULTURAL PRINCIPLES:\n- Directness (Sachlichkeit): Germans value clarity and precision. Be explicit and unambiguous.\n- Low-context communication: Provide necessary context but focus on facts over relationship-building.\n- Structured format: Clear opening → body → closing.\n- Formality: Use ".data ++
    pronoun ++
    " form consistently throughout.\n- Efficiency: No unnecessary politeness padding or small talk.\n- Deductive reasoning: State the point first, then provide supporting details.\n\nTASK:\n1. Preserve the greeting and closing lines EXACTLY as written (already culturally adapted)\n2. Translate all English content to German\n3. Apply German directness and precision (Sachlichkeit) to the tone\n4. Maintain deductive argumentation pattern (point first, then evidence)\n5. Keep all \x7bplaceholder\x7d variables unchanged in \x7bcurly braces\x7d\n6. Use ".data ++
    pronoun ++
    " form consistently\n7. Avoid excessive politeness - Germans prefer clarity over courtesy\n\nContext:\n- Domain: ".data ++
    template.domain.value ++ "\n- Formality: ".data ++ formality.value ++
    "\n- Pronoun: ".data ++ pronoun ++
    "\n\n".data ++
    "Transform this partially adapted prompt to fully German-appropriate communication:\n\nINPUT (with German scaffolding):\n".data ++
    programmatic_output ++
    "\n\nOUTPUT (fully culturally adapted German with Sachlichkeit):".data

/-- Python `SpanishAdapter._build_llm_adaptation_prompt`. -/
def SpanishAdapter._build_llm_adaptation_prompt (a : CulturalAdapter)
    (programmatic_output : Str) (template : PromptTemplate)
    (formality : FormalityLevel) : Str :=
  let pronoun := CulturalAdapter._get_pronoun a formality
  "You are a Latin American Spanish cultural communication expert. Transform the provided text to match Spanish-speaking cultural norms while preserving the existing structure.\n\nKEY LATIN AMERICAN SPANISH CULTURAL PRINCIPLES:\n- Relationship-first (confianza): Build personal connection before business transactions.\n- High-context communication: Provide relational preambles and context before requests.\n- Warmth (calidez): Even formal communication includes personal elements and well-being inquiries.\n- Indirect requests: Soften requests to show respect - avoid abruptness.\n- Gratitude (gratitud): Express thanks proactively and generously.\n- Collectivism: Emphasize team, community, and relational benefits.\n\nTASK:\n1. Preserve the greeting, relational preambles, and closing lines EXACTLY as written (already culturally adapted)\n2. Translate all English content to Spanish\n3. Apply Latin American warmth and relationship-building tone\n4. Maintain inductive argumentation pattern (context first, then point)\n5. Keep all \x7bplaceholder\x7d variables unchanged in \x7bcurly braces\x7d\n6. Use ".data ++
    pronoun ++
    " form consistently\n7. Add softening phrases for requests (e.g., \"si fuera posible\", \"agradecería mucho\")\n8. Ensure language feels natural for Latin American audience (not Castilian Spanish)\n\nContext:\n- Domain: ".data ++
    template.domain.value ++ "\n- Formality: ".data ++ formality.value ++
    "\n- Pronoun: ".data ++ pronoun ++
    "\n- Region: Latin America (prioritize warmth over Iberian directness)".data ++
    "\n\n".data ++
    "Transform this partially adapted prompt to fully Latin American Spanish-appropriate communication:\n\nINPUT (with Spanish scaffolding):\n".data ++
    programmatic_output ++
    "\n\nOUTPUT (fully culturally adapted Spanish with warmth and relationship focus):".data

/-! ## The two-phase `adapt` orchestration (`CulturalAdapter.adapt`) -/

/-- Dispatch for the abstract `_apply_programmatic_adaptations` extension
point. -/
def CulturalAdapter._apply_programmatic_adaptations (a : CulturalAdapter)
    (template : PromptTemplate) (formality : FormalityLevel) : Except Str Str :=
  match a.lang with
  | .en => EnglishAdapter._apply_programmatic_adaptations template formality
  | .de => .ok (GermanAdapter._apply_programmatic_adaptations a template formality)
  | .es => .ok (SpanishAdapter._apply_programmatic_adaptations a template formality)

/-- Dispatch for the abstract `_build_llm_adaptation_prompt` extension
point. -/
def CulturalAdapter._build_llm_adaptation_prompt (a : CulturalAdapter)
    (programmatic_output : Str) (template : PromptTemplate)
    (formality : FormalityLevel) : Str :=
  match a.lang with
  | .en => EnglishAdapter._build_llm_adaptation_prompt programmatic_output template formality
  | .de => GermanAdapter._build_llm_adaptation_prompt a programmatic_output template formality
  | .es => SpanishAdapter._build_llm_adaptation_prompt a programmatic_output template formality

/-- Python `CulturalAdapter._apply_llm_adaptation`.  The LLM configuration and
provider are passed explicitly; `adapt` only calls this when
`_should_use_llm_adaptation` holds, in which case they are exactly
`a.llm_adaptation_config` and `a._provider`. -/
def CulturalAdapter._apply_llm_adaptation (a : CulturalAdapter)
    (lcfg : LLMAdaptationConfig) (p : AbstractLLMProvider)
    (programmatic_output : Str) (template : PromptTemplate)
    (formality : FormalityLevel) : Except Str Str := do
  let llm_prompt :=
    CulturalAdapter._build_llm_adaptation_prompt a programmatic_output template formality
  let config : GenerationConfig :=
    { temperature := lcfg.temperature, max_tokens := lcfg.max_tokens }
  let result ← p.generate llm_prompt config
  .ok (pyStrip result.content)

/-- Python `CulturalAdapter.adapt`: phase 1 always, phase 2 when configured and
available, with silent fallback to the phase-1 text when the provider raises.
`now` stands for `datetime.now().isoformat()`.  The final `_, _` match arm is
unreachable: `_should_use_llm_adaptation` guarantees both options are
populated. -/
def CulturalAdapter.adapt (a : CulturalAdapter) (template : PromptTemplate)
    (formality : FormalityLevel) (now : Str) : Except Str PromptVariant := do
  let programmatic_output ← CulturalAdapter._apply_programmatic_adaptations a template formality
  let step : Str × Str :=
    if CulturalAdapter._should_use_llm_adaptation a then
      match a.llm_adaptation_config, a.provider with
      | some lcfg, some p =>
        match CulturalAdapter._apply_llm_adaptation a lcfg p programmatic_output template formality with
        | .ok final_output =>
          (final_output,
            CulturalAdapter._build_adaptation_notes a ("hybrid".data) template formality)
        | .error _ =>
          (programmatic_output,
            CulturalAdapter._build_adaptation_notes a ("programmatic_fallback".data) template formality)
      | _, _ =>
        (programmatic_output,
          CulturalAdapter._build_adaptation_notes a ("programmatic".data) template formality)
    else
      (programmatic_output,
        CulturalAdapter._build_adaptation_notes a ("programmatic".data) template formality)
  .ok { template_id := template.id
        language := a.language_code
        formality := formality
        adapted_content := step.1
        adaptation_notes := step.2
        timestamp := now
        metadata := [("strategy".data, CulturalAdapter._get_strategy_name a)] }

/-! ## Adapter factory (`src/mpo/adapters/factory.py`) -/

/-- The factory's dispatch dictionary `{"en": ..., "de": ..., "es": ...}`. -/
def adapter_table : List (Str × AdapterLanguage) :=
  [("en".data, .en), ("de".data, .de), ("es".data, .es)]

/-- Python `get_adapter`: raise `ValueError` for an unsupported language code,
otherwise instantiate the adapter class for `language_code`. -/
def get_adapter (language_code : Str) (config : AdapterConfig)
    (provider : Option AbstractLLMProvider) : Except Str CulturalAdapter :=
  match List.lookup language_code adapter_table with
  | none => .error ("Unsupported language code: ".data ++ language_code)
  | some lang => cultural_adapter_init lang config provider

/-! ## Constants (`src/mpo/constants.py`) -/

/-- Language code to full name mapping. -/
def LANGUAGE_NAMES : List (Str × Str) :=
  [("en".data, "English".data), ("de".data, "German".data),
    ("es".data, "Spanish".data), ("fr".data, "French".data)]

/-- Formality level guidance for LLM generation. -/
def FORMALITY_GUIDANCE : List (Str × Str) :=
  [("formal".data, "Use professional, business-appropriate language. Avoid excessive politeness.".data),
    ("neutral".data, "Use standard professional language.".data),
    ("casual".data, "Use conversational, friendly language.".data)]

/-- Python `get_formality_guidance`: raise `ValueError` for an unsupported
formality level. -/
def get_formality_guidance (formality_level : Str) : Except Str Str :=
  match List.lookup formality_level FORMALITY_GUIDANCE with
  | none =>
    .error ("Unsupported formality level: ".data ++ formality_level ++
      ". Supported levels: casual, neutral, formal".data)
  | some g => .ok g

/-! ## Evaluator (`src/mpo/core/evaluator.py`) -/

/-- Evaluation orchestrator state: provider, language configurations, and the
lazily populated adapter memoization cache (`self._adapters`, initially
empty). -/
structure PromptEvaluator where
  provider : AbstractLLMProvider
  language_configs : List (Str × AdapterConfig)
  adapters : List (Str × CulturalAdapter) := []

/-- Python `PromptEvaluator.__init__`. -/
def prompt_evaluator_init (provider : AbstractLLMProvider)
    (language_configs : List (Str × AdapterConfig)) : PromptEvaluator :=
  { provider := provider, language_configs := language_configs, adapters := [] }

/-- Python `PromptEvaluator._get_adapter`: read-through cache keyed by language
code; raise `ValueError` when the language has no configuration.  The updated
evaluator carries the possibly-extended cache. -/
def PromptEvaluator._get_adapter (e : PromptEvaluator) (language_code : Str) :
    Except Str (CulturalAdapter × PromptEvaluator) :=
  match List.lookup language_code e.adapters with
  | some a => .ok (a, e)
  | none =>
    match List.lookup language_code e.language_configs with
    | none => .error ("No configuration found for language: ".data ++ language_code)
    | some config => do
      let a ← get_adapter language_code config none
      .ok (a, { e with adapters := e.adapters ++ [(language_code, a)] })

/-- Python `PromptEvaluator.adapt_prompt`. -/
def PromptEvaluator.adapt_prompt (e : PromptEvaluator) (template : PromptTemplate)
    (language : Str) (formality : FormalityLevel) (now : Str) :
    Except Str (PromptVariant × PromptEvaluator) := do
  let (adapter, e') ← PromptEvaluator._get_adapter e language
  let v ← CulturalAdapter.adapt adapter template formality now
  .ok (v, e')

/-- The few-shot example input embedded in `evaluate_variant`. -/
def evaluator_example_input : Str :=
  "Hola\n\n¿Qué tal? Te escribo porque:\nI need your help with something urgent.\n\nGracias\nSaludos".data

/-- The few-shot example output embedded in `evaluate_variant`. -/
def evaluator_example_output : Str :=
  "Hola\n\n¿Qué tal? Te escribo porque:\nNecesito tu ayuda con algo urgente.\n\nGracias\nSaludos".data

/-- The translation-instruction envelope wrapped around
`variant.adapted_content` by `evaluate_variant`. -/
def build_instructed_prompt (variant : PromptVariant) : Except Str Str := do
  let target_language := (List.lookup variant.language LANGUAGE_NAMES).getD variant.language
  let formality_note ← get_formality_guidance variant.formality.value
  .ok ("Task: Translate ONLY English sentences to ".data ++ target_language ++
    ". Copy all ".data ++ target_language ++
    " text exactly as-is, including line breaks.\n\nExample:\nInput:\n".data ++
    evaluator_example_input ++ "\n\nOutput:\n".data ++ evaluator_example_output ++
    "\n\nNow translate this text (".data ++ formality_note ++
    "):\nInput:\n".data ++ variant.adapted_content ++ "\n\nOutput:".data)

/-- Python `PromptEvaluator.evaluate_variant`: wrap the adapted content in the
translation envelope, call the provider once, and package the result; any
provider exception propagates. -/
def PromptEvaluator.evaluate_variant (e : PromptEvaluator) (variant : PromptVariant)
    (config : Option GenerationConfig) : Except Str LLMResponse := do
  let config := config.getD {}
  let instructed_prompt ← build_instructed_prompt variant
  let result ← e.provider.generate instructed_prompt config
  let variant_id :=
    variant.template_id ++ "_".data ++ variant.language ++ "_".data ++ variant.formality.value
  .ok { variant_id := variant_id
        content := result.content
        model := result.model
        tokens_input := result.tokens_input
        tokens_output := result.tokens_output
        timestamp := result.timestamp
        metadata := pyDictMerge (result.metadata.getD [])
          [("language".data, variant.language),
            ("formality".data, variant.formality.value),
            ("adaptation_notes".data, variant.adaptation_notes)] }

/-! ## Quantitative metrics (`src/mpo/metrics/quantitative.py`) -/

/-- Word characters of the regex `\w` (ASCII fragment). -/
def word_char (c : Char) : Bool := c.isAlphanum || c = '_'

/-- Accumulating scanner splitting a string into maximal runs of word
characters, the effect of `re.findall(r'\b\w+\b', s)`. -/
def word_runs_aux : Str → Str → List Str
  | [], acc => if acc.isEmpty then [] else [acc.reverse]
  | c :: rest, acc =>
    if word_char c then word_runs_aux rest (c :: acc)
    else if acc.isEmpty then word_runs_aux rest []
    else acc.reverse :: word_runs_aux rest []

/-- Python `re.findall(r'\b\w+\b', s)`: the maximal word-character runs. -/
def find_word_tokens (s : Str) : List Str := word_runs_aux s []

/-- Distinct elements in first-occurrence order (insertion order of a Python
set/Counter built from the list). -/
def distinct_aux : List Str → List Str → List Str
  | [], _ => []
  | w :: rest, seen =>
    if w ∈ seen then distinct_aux rest seen else w :: distinct_aux rest (w :: seen)

/-- Distinct words, first occurrences first. -/
def distinct_in_order (ws : List Str) : List Str := distinct_aux ws []

/-- Stable descending insertion by count, matching the tie behaviour of
`Counter.most_common` (equal counts keep first-occurrence order). -/
def insert_by_count_desc (x : Str × Nat) : List (Str × Nat) → List (Str × Nat)
  | [] => [x]
  | y :: ys => if y.2 ≤ x.2 then x :: y :: ys else y :: insert_by_count_desc x ys

/-- Python `Counter(words).most_common(10)`. -/
def counter_most_common (ws : List Str) : List (Str × Nat) :=
  (((distinct_in_order ws).map (fun w => (w, ws.count w))).foldr insert_by_count_desc []).take 10

/-- Return value of `calculate_lexical_diversity`; `most_common_words` is
`none` on the empty-token early return, whose dictionary lacks the key. -/
structure LexicalDiversityMetrics where
  type_token_ratio : ℚ
  unique_words : Nat
  total_words : Nat
  most_common_words : Option (List (Str × Nat))
deriving DecidableEq

/-- Python `calculate_lexical_diversity`. -/
def calculate_lexical_diversity (response : Str) : LexicalDiversityMetrics :=
  let words := find_word_tokens (str_lower response)
  if words.isEmpty then
    { type_token_ratio := 0, unique_words := 0, total_words := 0, most_common_words := none }
  else
    let unique_words := (distinct_in_order words).length
    let total_words := words.length
    let ttr : ℚ := if 0 < total_words then (unique_words : ℚ) / (total_words : ℚ) else 0
    { type_token_ratio := pyRoundTo ttr 3
      unique_words := unique_words
      total_words := total_words
      most_common_words := some (counter_most_common words) }

/-! ## Qualitative metrics (`src/mpo/metrics/qualitative.py`) -/

/-- One rubric criterion: `{"score": ..., "notes": [...]}`. -/
structure CriterionResult where
  score : Nat
  notes : List Str
deriving DecidableEq

/-- Python `_evaluate_greeting`. -/
def _evaluate_greeting (response language formality : Str) : CriterionResult :=
  if language = "de".data then
    if formality = "formal".data then
      if ("Sehr geehrte".data) <:+: response then
        ⟨5, ["Excellent: Very formal German greeting".data]⟩
      else if ("Guten Tag".data) <:+: response then
        ⟨4, ["Good: Appropriate formal greeting".data]⟩
      else if ("Hallo".data) <:+: response then
        ⟨2, ["Poor: Too casual for formal context".data]⟩
      else ⟨3, []⟩
    else if formality = "casual".data then
      if ("Hallo".data) <:+: response ∨ ("Hi".data) <:+: response then
        ⟨5, ["Excellent: Casual greeting matches formality".data]⟩
      else if ("Guten Tag".data) <:+: response then
        ⟨3, ["Adequate: Slightly formal for casual context".data]⟩
      else ⟨3, []⟩
    else ⟨3, []⟩
  else if language = "es".data then
    if formality = "formal".data then
      if ("Estimado".data) <:+: response ∨ ("Estimada".data) <:+: response then
        ⟨5, ["Excellent: Formal Spanish greeting".data]⟩
      else if ("Buenos días".data) <:+: response then
        ⟨4, ["Good: Professional greeting".data]⟩
      else if ("Hola".data) <:+: response then
        ⟨2, ["Poor: Too casual for formal context".data]⟩
      else ⟨3, []⟩
    else if formality = "casual".data then
      if ("Hola".data) <:+: response ∨ ("¿Qué tal?".data) <:+: response then
        ⟨5, ["Excellent: Casual greeting matches formality".data]⟩
      else ⟨3, []⟩
    else ⟨3, []⟩
  else if language = "en".data then
    if formality = "formal".data then
      if ("Dear".data) <:+: response.take 50 then
        ⟨5, ["Excellent: Formal English greeting".data]⟩
      else if ("Please".data) <+: response then
        ⟨4, ["Good: Polite formal opening".data]⟩
      else ⟨3, []⟩
    else ⟨3, []⟩
  else ⟨3, []⟩

/-- Python `_evaluate_formality_match`. -/
def _evaluate_formality_match (response language formality : Str) : CriterionResult :=
  if language = "de".data then
    let has_sie := ("Sie".data) <:+: response
    let has_du := ("du".data) <:+: str_lower response
    if formality = "formal".data ∨ formality = "neutral".data then
      if has_sie ∧ ¬ has_du then ⟨5, ["Perfect: Uses 'Sie' consistently".data]⟩
      else if has_du then ⟨2, ["Poor: Uses 'du' in formal context".data]⟩
      else ⟨3, []⟩
    else if formality = "casual".data then
      if has_du ∧ ¬ has_sie then ⟨5, ["Perfect: Uses 'du' for casual tone".data]⟩
      else ⟨3, []⟩
    else ⟨3, []⟩
  else if language = "es".data then
    let has_usted := ("usted".data) <:+: str_lower response
    let has_tu := ("tú".data) <:+: str_lower response
    if formality = "formal".data ∨ formality = "neutral".data then
      if has_usted ∧ ¬ has_tu then ⟨5, ["Perfect: Uses 'usted' consistently".data]⟩
      else if has_tu then ⟨2, ["Poor: Uses 'tú' in formal context".data]⟩
      else ⟨3, []⟩
    else if formality = "casual".data then
      if has_tu ∧ ¬ has_usted then ⟨5, ["Perfect: Uses 'tú' for casual tone".data]⟩
      else ⟨3, []⟩
    else ⟨3, []⟩
  else ⟨3, []⟩

/-- Python `_evaluate_cultural_markers`: a base score of 3, conditional
increments, capped at 5. -/
def _evaluate_cultural_markers (response language domain : Str) : CriterionResult :=
  let base : Nat × List Str := (3, [])
  let stepped : Nat × List Str :=
    if language = "es".data ∧ domain = "business".data then
      let s1 :=
        if ("Espero que".data) <:+: response then
          (base.1 + 1, base.2 ++ ["Good: Includes well-being inquiry (Spanish cultural norm)".data])
        else base
      if ("Agradezco".data) <:+: response ∨ ("agradezco".data) <:+: response then
        (s1.1 + 1, s1.2 ++ ["Good: Expresses gratitude (Spanish cultural value)".data])
      else s1
    else if language = "de".data ∧ (domain = "business".data ∨ domain = "technical".data) then
      if ("Ich möchte".data) <:+: response ∨ ("Ich bitte".data) <:+: response ∨
          ("Kurze Frage".data) <:+: response then
        (base.1 + 1, base.2 ++ ["Good: Direct and structured (German cultural preference)".data])
      else base
    else base
  ⟨min stepped.1 5, stepped.2⟩

/-- Python `_evaluate_closing`. -/
def _evaluate_closing (response language formality : Str) : CriterionResult :=
  if language = "de".data then
    if formality = "formal".data ∧ ("Hochachtungsvoll".data) <:+: response then
      ⟨5, ["Excellent: Very formal German closing".data]⟩
    else if ("freundlichen Grüßen".data) <:+: response then
      ⟨4, ["Good: Standard professional closing".data]⟩
    else if formality = "casual".data ∧ ("Viele Grüße".data) <:+: response then
      ⟨5, ["Excellent: Casual closing matches formality".data]⟩
    else ⟨3, []⟩
  else if language = "es".data then
    if formality = "formal".data ∧
        (("Cordialmente".data) <:+: response ∨ ("Atentamente".data) <:+: response) then
      ⟨5, ["Excellent: Formal Spanish closing".data]⟩
    else if ("Saludos".data) <:+: response ∧ formality = "casual".data then
      ⟨5, ["Excellent: Casual closing matches formality".data]⟩
    else ⟨3, []⟩
  else if language = "en".data then
    if formality = "formal".data ∧ ("Sincerely".data) <:+: response then
      ⟨5, ["Excellent: Formal English closing".data]⟩
    else ⟨3, []⟩
  else ⟨3, []⟩

/-- Python `_score_to_rating`: five bands at 4.5 / 3.5 / 2.5 / 1.5. -/
def _score_to_rating (score : ℚ) : Str :=
  if 4.5 ≤ score then "Excellent".data
  else if 3.5 ≤ score then "Good".data
  else if 2.5 ≤ score then "Adequate".data
  else if 1.5 ≤ score then "Poor".data
  else "Inappropriate".data

/-- Return value of `evaluate_cultural_appropriateness`, with the four
criteria flattened out of the `criteria` sub-dictionary. -/
structure CulturalAppropriatenessScores where
  language : Str
  formality_target : Str
  domain : Str
  greeting : CriterionResult
  formality_match : CriterionResult
  cultural_markers : CriterionResult
  closing : CriterionResult
  overall_score : ℚ
  overall_rating : Str

/-- Python `evaluate_cultural_appropriateness`: four criteria, averaged; the
rounded average is reported while the rating is computed from the raw
average. -/
def evaluate_cultural_appropriateness (response language formality domain : Str) :
    CulturalAppropriatenessScores :=
  let greeting_score := _evaluate_greeting response language formality
  let formality_score := _evaluate_formality_match response language formality
  let cultural_markers_score := _evaluate_cultural_markers response language domain
  let closing_score := _evaluate_closing response language formality
  let total_score : ℚ :=
    ((greeting_score.score + formality_score.score + cultural_markers_score.score +
      closing_score.score : Nat) : ℚ) / 4
  { language := language
    formality_target := formality
    domain := domain
    greeting := greeting_score
    formality_match := formality_score
    cultural_markers := cultural_markers_score
    closing := closing_score
    overall_score := pyRoundTo total_score 2
    overall_rating := _score_to_rating total_score }

/-! ## Well-formed template shapes (for reasoning about `render`) -/

/-- A template as a sequence of literal pieces and placeholder tokens. -/
inductive TemplateSeg
  | lit : Str → TemplateSeg
  | ph : Str → TemplateSeg
deriving DecidableEq

/-- Concrete text of one segment: a literal is itself; `ph k` is the token
`{k}`. -/
def TemplateSeg.text : TemplateSeg → Str
  | .lit s => s
  | .ph k => '{' :: (k ++ ['}'])

/-- Concrete text of a segment list. -/
def segs_text (segs : List TemplateSeg) : Str := (segs.map TemplateSeg.text).foldr (· ++ ·) []

/-- No brace character occurs in `s`. -/
def brace_free (s : Str) : Bool := s.all (fun c => !(c == '{' || c == '}'))

/-- Segment shape discipline relative to a key list: literals are brace-free,
and every placeholder key is brace-free and drawn from the key list. -/
def seg_ok (ks : List Str) : TemplateSeg → Bool
  | .lit s => brace_free s
  | .ph k => decide (k ∈ ks) && brace_free k

/-- All segments satisfy the shape discipline. -/
def segs_wf (ks : List Str) (segs : List TemplateSeg) : Bool := segs.all (seg_ok ks)

/-- Substituting a value for one placeholder key turns its tokens into
literals. -/
def subst_seg (k rep : Str) : TemplateSeg → TemplateSeg
  | .lit s => .lit s
  | .ph k' => if k' = k then .lit rep else .ph k'

/-! ## Concrete fixtures (configurations and inputs from the test suite) -/

/-- The placeholder token `{k}` as written in template text. -/
def placeholder_token (k : Str) : Str := '{' :: (k ++ ['}'])

/-- German language configuration (mirrors `tests/unit/test_adapters.py`). -/
def german_config : AdapterConfig :=
  { code := some ("de".data)
    name := some ("German".data)
    cultural_params := some
      { formality_levels := some
          [("formal".data,
            { pronoun := some ("Sie".data)
              greeting := some ("Sehr geehrte Damen und Herren".data)
              closing := some ("Hochachtungsvoll".data) }),
            ("neutral".data,
            { pronoun := some ("Sie".data)
              greeting := some ("Guten Tag".data)
              closing := some ("Mit freundlichen Grüßen".data) }),
            ("casual".data,
            { pronoun := some ("du".data)
              greeting := some ("Hallo".data)
              closing := some ("Viele Grüße".data) })] }
    llm_adaptation := none }

/-- Spanish language configuration (mirrors `tests/unit/test_adapters.py`). -/
def spanish_config : AdapterConfig :=
  { code := some ("es".data)
    name := some ("Spanish".data)
    cultural_params := some
      { formality_levels := some
          [("formal".data,
            { pronoun := some ("usted".data)
              greeting := some ("Estimado/a señor/señora".data)
              closing := some ("Cordialmente".data) }),
            ("neutral".data,
            { pronoun := some ("usted".data)
              greeting := some ("Buenos días".data)
              closing := some ("Atentamente".data) }),
            ("casual".data,
            { pronoun := some ("tú".data)
              greeting := some ("Hola".data)
              closing := some ("Saludos".data) })] }
    llm_adaptation := none }

/-- English baseline configuration (`cultural_params` empty). -/
def english_config : AdapterConfig :=
  { code := some ("en".data)
    name := some ("English".data)
    cultural_params := some { formality_levels := none }
    llm_adaptation := none }

/-- Raw `llm_adaptation` block enabling hybrid refinement. -/
def llm_enabled_raw : LLMAdaptationRaw :=
  { enabled := some true, strategy := some ("hybrid_sequential".data) }

/-- Parsed hybrid-enabled LLM adaptation configuration (the parse of
`llm_enabled_raw`). -/
def hybrid_llm_config : LLMAdaptationConfig :=
  { enabled := true
    strategy := .hybrid_sequential
    llm_system_prompt := []
    temperature := 3/10
    max_tokens := 2048 }

/-- German configuration with hybrid LLM refinement enabled. -/
def german_config_llm : AdapterConfig :=
  { german_config with llm_adaptation := some llm_enabled_raw }

/-- Spanish configuration with hybrid LLM refinement enabled. -/
def spanish_config_llm : AdapterConfig :=
  { spanish_config with llm_adaptation := some llm_enabled_raw }

/-- A provider whose `generate` always raises. -/
def failing_provider : AbstractLLMProvider :=
  { generate := fun _ _ => .error ("API call failed".data) }

/-- A provider that succeeds but returns refusal text that drops every
placeholder. -/
def junk_provider : AbstractLLMProvider :=
  { generate := fun _ _ =>
      .ok { content := "LLM OUTPUT".data
            tokens_input := 0
            tokens_output := 0
            model := "stub-model".data
            timestamp := "2024-01-01T00:00:00".data
            metadata := none } }

/-- German adapter in hybrid mode whose provider always raises. -/
def de_hybrid_failing_adapter : CulturalAdapter :=
  { lang := .de
    config := german_config_llm
    provider := some failing_provider
    llm_adaptation_config := some hybrid_llm_config }

/-- Spanish adapter in hybrid mode whose provider returns placeholder-free
text. -/
def es_hybrid_junk_adapter : CulturalAdapter :=
  { lang := .es
    config := spanish_config_llm
    provider := some junk_provider
    llm_adaptation_config := some hybrid_llm_config }

/-- English baseline adapter without a provider. -/
def en_adapter : CulturalAdapter :=
  { lang := .en
    config := english_config
    provider := none
    llm_adaptation_config := none }

/-- Sample template from the unit tests. -/
def sample_template : PromptTemplate :=
  { id := "test_prompt".data
    content := "I need to request an extension for the project deadline.".data
    domain := .business
    placeholders := []
    description := "Test prompt".data
    metadata := [] }

/-- Template whose content carries a `{name}` placeholder token. -/
def c2cx_template : PromptTemplate :=
  { id := "t1".data
    content := "Summarize \x7bname\x7d for me.".data
    domain := .business }

/-- Template with empty content. -/
def empty_template : PromptTemplate :=
  { id := "empty".data, content := [], domain := .business }

/-- Template whose single placeholder value reintroduces its own token. -/
def self_token_template : PromptTemplate :=
  { id := "self".data
    content := "\x7ba\x7d".data
    domain := .business
    placeholders := [("a".data, "\x7ba\x7d".data)] }

/-- Template with a well-formed content shape for the rendering theorem. -/
def c4_witness_template : PromptTemplate :=
  { id := "c4".data
    content := "Hello \x7bname\x7d!".data
    domain := .business
    placeholders := [("name".data, "world".data)] }

/-- Segment decomposition of `c4_witness_template`'s content. -/
def c4_witness_segs : List TemplateSeg :=
  [.lit ("Hello ".data), .ph ("name".data), .lit ("!".data)]

/-- Scenario-5 sentence of the specification. -/
def c3_sentence : Str := "the cat sat on the mat the cat ran".data

/-- Well-being inquiry phrase of the Spanish formal preamble. -/
def wellbeing_phrase : Str := "Espero que se encuentre bien.".data

/-- Proactive gratitude phrase of the Spanish formal/neutral closing block. -/
def gratitude_phrase : Str := "Agradezco de antemano su atención y tiempo.".data

/-- Spanish adapter without a provider (programmatic-only). -/
def es_adapter : CulturalAdapter :=
  { lang := .es
    config := spanish_config
    provider := none
    llm_adaptation_config := none }

/-- Template whose content is itself the Spanish well-being inquiry phrase. -/
def c9cx_template : PromptTemplate :=
  { id := "c9".data, content := "Espero que se encuentre bien.".data, domain := .business }

/-- Evaluator over a single configured language (`de`), fresh cache. -/
def sample_evaluator : PromptEvaluator :=
  prompt_evaluator_init failing_provider [("de".data, german_config)]

/-- An arbitrary concrete variant for exercising `evaluate_variant`. -/
def c8_variant : PromptVariant :=
  { template_id := "t".data
    language := "es".data
    formality := .formal
    adapted_content := "hello".data
    adaptation_notes := "notes".data
    timestamp := "2024-01-01T00:00:00".data
    metadata := [] }

/-! ## Supporting lemmas -/

/-- The executable `Rat.floor` agrees with the floor of the ordered field. -/
theorem rat_floor_eq (q : ℚ) : Rat.floor q = ⌊q⌋ := by
  rw [Rat.floor_def' q, Rat.floor_def]

/-- Rounding an integer changes nothing. -/
theorem roundHalfToEven_intCast (n : ℤ) : roundHalfToEven (n : ℚ) = n := by
  simp [roundHalfToEven, rat_floor_eq]

/-- Two-digit rounding is the identity on quarters. -/
theorem pyRoundTo_nat_quarter (n : ℕ) : pyRoundTo ((n : ℚ)/4) 2 = (n : ℚ)/4 := by
  have h : ((n : ℚ)/4) * 10 ^ 2 = ((25 * (n : ℤ) : ℤ) : ℚ) := by push_cast; ring
  rw [pyRoundTo, h, roundHalfToEven_intCast]
  push_cast
  ring

/-- Greeting criterion scores lie in `[2, 5]`. -/
theorem greeting_score_bounds (response language formality : Str) :
    2 ≤ (_evaluate_greeting response language formality).score ∧
      (_evaluate_greeting response language formality).score ≤ 5 := by
  unfold _evaluate_greeting
  split_ifs <;> decide

/-- Formality-match criterion scores lie in `[2, 5]`. -/
theorem formality_match_score_bounds (response language formality : Str) :
    2 ≤ (_evaluate_formality_match response language formality).score ∧
      (_evaluate_formality_match response language formality).score ≤ 5 := by
  unfold _evaluate_formality_match
  dsimp only
  split_ifs <;> decide

/-- Cultural-markers criterion scores lie in `[3, 5]`. -/
theorem cultural_markers_score_bounds (response language domain : Str) :
    3 ≤ (_evaluate_cultural_markers response language domain).score ∧
      (_evaluate_cultural_markers response language domain).score ≤ 5 := by
  unfold _evaluate_cultural_markers
  dsimp only
  split_ifs <;> decide

/-- Closing criterion scores lie in `[3, 5]`. -/
theorem closing_score_bounds (response language formality : Str) :
    3 ≤ (_evaluate_closing response language formality).score ∧
      (_evaluate_closing response language formality).score ≤ 5 := by
  unfold _evaluate_closing
  split_ifs <;> decide

/-- Scores of at least 2.5 never map to the bottom two rating bands. -/
theorem score_to_rating_floor (s : ℚ) (h : 5/2 ≤ s) :
    _score_to_rating s ≠ "Poor".data ∧ _score_to_rating s ≠ "Inappropriate".data := by
  unfold _score_to_rating
  split_ifs with h1 h2 h3 h4
  · exact ⟨by decide, by decide⟩
  · exact ⟨by decide, by decide⟩
  · exact ⟨by decide, by decide⟩
  · exfalso
    have : (2.5 : ℚ) = 5/2 := by norm_num
    exact h3 (this ▸ h)
  · exfalso
    have : (2.5 : ℚ) = 5/2 := by norm_num
    exact h3 (this ▸ h)

/-- Bind on a successful `Except` computation runs the continuation. -/
theorem except_bind_ok {α β : Type} (a : α) (f : α → Except Str β) :
    (Except.ok a : Except Str α) >>= f = f a := rfl

/-- Bind on a failed `Except` computation propagates the error. -/
theorem except_bind_error {α β : Type} (msg : Str) (f : α → Except Str β) :
    (Except.error msg : Except Str α) >>= f = .error msg := rfl

/-- The translation envelope always builds: every `FormalityLevel` value has
guidance configured. -/
theorem build_instructed_prompt_ok (variant : PromptVariant) :
    ∃ ip, build_instructed_prompt variant = .ok ip := by
  unfold build_instructed_prompt get_formality_guidance
  rcases hf : variant.formality <;> exact ⟨_, rfl⟩

/-- C6: for every response text, language code, formality string and domain
string, `evaluate_cultural_appropriateness` reports an `overall_score` in the
closed interval `[1, 5]`, and `overall_rating` is exactly the five-band label
that the 4.5/3.5/2.5/1.5 thresholds assign to that score. -/
theorem C6_overall_score_bounds (response language formality domain : Str) :
    1 ≤ (evaluate_cultural_appropriateness response language formality domain).overall_score ∧
    (evaluate_cultural_appropriateness response language formality domain).overall_score ≤ 5 ∧
    (evaluate_cultural_appropriateness response language formality domain).overall_rating =
      _score_to_rating
        (evaluate_cultural_appropriateness response language formality domain).overall_score := by
  have hg := greeting_score_bounds response language formality
  have hf := formality_match_score_bounds response language formality
  have hm := cultural_markers_score_bounds response language domain
  have hc := closing_score_bounds response language formality
  have hscore : (evaluate_cultural_appropriateness response language formality domain).overall_score =
      (((_evaluate_greeting response language formality).score +
        (_evaluate_formality_match response language formality).score +
        (_evaluate_cultural_markers response language domain).score +
        (_evaluate_closing response language formality).score : ℕ) : ℚ)/4 :=
    pyRoundTo_nat_quarter _
  have hrating : (evaluate_cultural_appropriateness response language formality domain).overall_rating =
      _score_to_rating
        ((((_evaluate_greeting response language formality).score +
          (_evaluate_formality_match response language formality).score +
          (_evaluate_cultural_markers response language domain).score +
          (_evaluate_closing response language formality).score : ℕ) : ℚ)/4) := rfl
  have hlo : (4 : ℚ) ≤
      (((_evaluate_greeting response language formality).score +
        (_evaluate_formality_match response language formality).score +
        (_evaluate_cultural_markers response language domain).score +
        (_evaluate_closing response language formality).score : ℕ) : ℚ) := by
    exact_mod_cast Nat.le_trans (by omega) (by omega : 2 + 2 + 3 + 3 ≤ _)
  have hhi : (((_evaluate_greeting response language formality).score +
        (_evaluate_formality_match response language formality).score +
        (_evaluate_cultural_markers response language domain).score +
        (_evaluate_closing response language formality).score : ℕ) : ℚ) ≤ 20 := by
    exact_mod_cast (by omega : _ ≤ 20)
  refine ⟨?_, ?_, ?_⟩
  · rw [hscore, le_div_iff (by norm_num : (0:ℚ) < 4)]
    linarith
  · rw [hscore, div_le_iff (by norm_num : (0:ℚ) < 4)]
    linarith
  · rw [hscore, hrating]

/-- C10: every rubric criterion has a hard floor (greeting and formality-match
never drop below 2, cultural-markers and closing never below 3; all scores are
natural numbers by construction), so the overall score is at least 2.5 and the
"Poor" and "Inappropriate" rating bands are unreachable. -/
theorem C10_criterion_floors (response language formality domain : Str) :
    2 ≤ (_evaluate_greeting response language formality).score ∧
    2 ≤ (_evaluate_formality_match response language formality).score ∧
    3 ≤ (_evaluate_cultural_markers response language domain).score ∧
    3 ≤ (_evaluate_closing response language formality).score ∧
    5/2 ≤ (evaluate_cultural_appropriateness response language formality domain).overall_score ∧
    (evaluate_cultural_appropriateness response language formality domain).overall_rating ≠
      "Poor".data ∧
    (evaluate_cultural_appropriateness response language formality domain).overall_rating ≠
      "Inappropriate".data := by
  have hg := greeting_score_bounds response language formality
  have hf := formality_match_score_bounds response language formality
  have hm := cultural_markers_score_bounds response language domain
  have hc := closing_score_bounds response language formality
  have hscore : (evaluate_cultural_appropriateness response language formality domain).overall_score =
      (((_evaluate_greeting response language formality).score +
        (_evaluate_formality_match response language formality).score +
        (_evaluate_cultural_markers response language domain).score +
        (_evaluate_closing response language formality).score : ℕ) : ℚ)/4 :=
    pyRoundTo_nat_quarter _
  have hrating : (evaluate_cultural_appropriateness response language formality domain).overall_rating =
      _score_to_rating
        ((((_evaluate_greeting response language formality).score +
          (_evaluate_formality_match response language formality).score +
          (_evaluate_cultural_markers response language domain).score +
          (_evaluate_closing response language formality).score : ℕ) : ℚ)/4) := rfl
  have hlo : (10 : ℚ) ≤
      (((_evaluate_greeting response language formality).score +
        (_evaluate_formality_match response language formality).score +
        (_evaluate_cultural_markers response language domain).score +
        (_evaluate_closing response language formality).score : ℕ) : ℚ) := by
    exact_mod_cast (by omega : 10 ≤ _)
  have hmid : 5/2 ≤ (evaluate_cultural_appropriateness response language formality domain).overall_score := by
    rw [hscore, le_div_iff (by norm_num : (0:ℚ) < 4)]
    linarith
  have hfloor := score_to_rating_floor _ (hscore ▸ hmid)
  exact ⟨hg.1, hf.1, hm.1, hc.1, hmid, hrating ▸ hfloor.1, hrating ▸ hfloor.2⟩

/-- C5 (code bug): the English adapter's formal branch indexes
`content.lower()[0]` without guarding against empty content, so `adapt` on the
empty template raises `IndexError` instead of returning a variant, although no
provider is even attached. -/
theorem C5_empty_formal_english_raises :
    CulturalAdapter.adapt en_adapter empty_template .formal [] =
      .error ("string index out of range".data) := rfl

/-- C7: the adapter factory rejects every language code outside en/de/es with
a `ValueError` and produces no adapter, and a fresh evaluator's `adapt_prompt`
fails immediately with a configuration error for a language code absent from
its language configurations. -/
theorem C7_unsupported_language (code : Str) (config : AdapterConfig)
    (provider : Option AbstractLLMProvider)
    (h : code ≠ "en".data ∧ code ≠ "de".data ∧ code ≠ "es".data) :
    get_adapter code config provider =
        .error ("Unsupported language code: ".data ++ code) ∧
    ∀ (p : AbstractLLMProvider) (configs : List (Str × AdapterConfig))
      (template : PromptTemplate) (formality : FormalityLevel) (now : Str),
      List.lookup code configs = none →
      PromptEvaluator.adapt_prompt (prompt_evaluator_init p configs) template code formality now =
        .error ("No configuration found for language: ".data ++ code) := by
  obtain ⟨h1, h2, h3⟩ := h
  have e1 : (code == "en".data) = false := beq_eq_false_iff_ne.mpr h1
  have e2 : (code == "de".data) = false := beq_eq_false_iff_ne.mpr h2
  have e3 : (code == "es".data) = false := beq_eq_false_iff_ne.mpr h3
  have hlk : List.lookup code adapter_table = none := by
    simp [adapter_table, List.lookup, e1, e2, e3]
  constructor
  · simp [get_adapter, hlk]
  · intro p configs template formality now hnone
    have hga : PromptEvaluator._get_adapter (prompt_evaluator_init p configs) code =
        .error ("No configuration found for language: ".data ++ code) := by
      simp [PromptEvaluator._get_adapter, prompt_evaluator_init, List.lookup, hnone]
    unfold PromptEvaluator.adapt_prompt
    rw [hga, except_bind_error]

/-- C7 witness at the concrete code `"xx"`. -/
theorem C7_witness :
    get_adapter ("xx".data) german_config none =
        .error ("Unsupported language code: ".data ++ "xx".data) ∧
    PromptEvaluator.adapt_prompt sample_evaluator sample_template ("xx".data) .formal [] =
      .error ("No configuration found for language: ".data ++ "xx".data) := by
  have h := C7_unsupported_language ("xx".data) german_config none
    ⟨by decide, by decide, by decide⟩
  exact ⟨h.1, h.2 failing_provider [("de".data, german_config)] sample_template .formal [] rfl⟩

/-- C8: a provider exception inside `evaluate_variant` propagates to the
caller unchanged, with no retry and no fallback, and an `LLMResponse` comes
back only when the single `generate` call succeeded (its content being the
provider's content verbatim). -/
theorem C8_generation_failure_propagates (e : PromptEvaluator) (variant : PromptVariant)
    (config : Option GenerationConfig) :
    (∀ err : Str, (∀ s c, e.provider.generate s c = .error err) →
      PromptEvaluator.evaluate_variant e variant config = .error err) ∧
    (∀ r : LLMResponse, PromptEvaluator.evaluate_variant e variant config = .ok r →
      ∃ ip res, build_instructed_prompt variant = .ok ip ∧
        e.provider.generate ip (config.getD {}) = .ok res ∧ r.content = res.content) := by
  obtain ⟨ip, hip⟩ := build_instructed_prompt_ok variant
  constructor
  · intro err hgen
    simp only [PromptEvaluator.evaluate_variant, hip, except_bind_ok, hgen, except_bind_error]
  · intro r hr
    refine ⟨ip, ?_⟩
    cases hgen : e.provider.generate ip (config.getD {}) with
    | error err =>
      exfalso
      simp only [PromptEvaluator.evaluate_variant, hip, except_bind_ok, hgen,
        except_bind_error] at hr
      exact Except.noConfusion hr
    | ok res =>
      refine ⟨res, hip, rfl, ?_⟩
      simp only [PromptEvaluator.evaluate_variant, hip, except_bind_ok, hgen,
        except_bind_error, Except.ok.injEq] at hr
      rw [← hr]

/-- C8 witness: the always-raising provider's error message reaches the caller
verbatim. -/
theorem C8_witness :
    PromptEvaluator.evaluate_variant sample_evaluator c8_variant none =
      .error ("API call failed".data) :=
  (C8_generation_failure_propagates sample_evaluator c8_variant none).1 _ (fun _ _ => rfl)

/-- Evaluation rule for `roundHalfToEven` when the fractional part exceeds a
half. -/
theorem roundHalfToEven_eval_up (q : ℚ) (n : ℤ) (hn : Rat.floor q = n)
    (hlt : 1/2 < q - n) : roundHalfToEven q = n + 1 := by
  unfold roundHalfToEven
  rw [hn, if_neg (by linarith), if_pos hlt]

/-- C3 counterexample: the scenario sentence has six distinct case-folded
words (the, cat, sat, on, mat, ran), not seven. -/
theorem C3_counterexample :
    (calculate_lexical_diversity c3_sentence).unique_words = 6 ∧
    ¬ ((calculate_lexical_diversity c3_sentence).unique_words = 7 ∧
       (calculate_lexical_diversity c3_sentence).total_words = 9) := by
  constructor
  · decide
  · intro hcontra
    have := hcontra.1
    revert this
    decide

/-- C3 (amended): `calculate_lexical_diversity` on the scenario sentence
returns unique_words = 6, total_words = 9 and type_token_ratio = 6/9 rounded
to three digits, i.e. 0.667. -/
theorem C3_lexical_diversity_scenario :
    (calculate_lexical_diversity c3_sentence).unique_words = 6 ∧
    (calculate_lexical_diversity c3_sentence).total_words = 9 ∧
    (calculate_lexical_diversity c3_sentence).type_token_ratio = 667/1000 := by
  refine ⟨by decide, by decide, ?_⟩
  have hq : (calculate_lexical_diversity c3_sentence).type_token_ratio =
      pyRoundTo (((6:ℕ):ℚ)/((9:ℕ):ℚ)) 3 := rfl
  have h1 : (((6:ℕ):ℚ)/((9:ℕ):ℚ)) * 10 ^ 3 = ((2000:ℤ):ℚ)/((3:ℕ):ℚ) := by
    push_cast
    ring
  have h2 : Rat.floor (((2000:ℤ):ℚ)/((3:ℕ):ℚ)) = 666 := by
    rw [rat_floor_eq, Rat.floor_intCast_div_natCast]
    decide
  have h3 : roundHalfToEven (((2000:ℤ):ℚ)/((3:ℕ):ℚ)) = 667 := by
    have h4 := roundHalfToEven_eval_up _ 666 h2 (by push_cast; norm_num)
    simpa using h4
  rw [hq, pyRoundTo, h1, h3]
  norm_num

/-- C1 counterexample: with hybrid refinement enabled and a provider that
always raises, the fallback variant's metadata `strategy` key still reads
`hybrid_sequential` (the configured hybrid strategy tag), not a
programmatic-fallback marker; only `adaptation_notes` records the fallback. -/
theorem C1_counterexample :
    (CulturalAdapter.adapt de_hybrid_failing_adapter sample_template .formal []).map
        (fun v => (List.lookup ("strategy".data) v.metadata, v.adapted_content)) =
      .ok (some ("hybrid_sequential".data),
        GermanAdapter._apply_programmatic_adaptations de_hybrid_failing_adapter
          sample_template .formal) ∧
    some ("hybrid_sequential".data) ≠ some ("programmatic_fallback".data) := by
  constructor
  · rfl
  · decide

/-- C1 (amended): when refinement is configured, enabled and the attached
provider's `generate` always raises, `adapt` still returns a variant whose
`adapted_content` is exactly the phase-1 programmatic output and whose
`adaptation_notes` record the programmatic fallback; the `strategy` metadata
key, however, always carries the configured strategy name (here the hybrid
tag), regardless of the path taken. -/
theorem C1_fallback_behavior (a : CulturalAdapter) (lcfg : LLMAdaptationConfig)
    (p : AbstractLLMProvider) (template : PromptTemplate) (formality : FormalityLevel)
    (now : Str) (po : Str)
    (hcfg : a.llm_adaptation_config = some lcfg) (hen : lcfg.enabled = true)
    (hp : a.provider = some p)
    (hfail : ∀ s c, ∃ msg, p.generate s c = .error msg)
    (hpo : CulturalAdapter._apply_programmatic_adaptations a template formality = .ok po) :
    CulturalAdapter.adapt a template formality now =
      .ok { template_id := template.id
            language := a.language_code
            formality := formality
            adapted_content := po
            adaptation_notes :=
              CulturalAdapter._build_adaptation_notes a ("programmatic_fallback".data)
                template formality
            timestamp := now
            metadata := [("strategy".data, lcfg.strategy.value)] } ∧
    CulturalAdapter._get_strategy_name a = lcfg.strategy.value := by
  have hshould : CulturalAdapter._should_use_llm_adaptation a = true := by
    simp [CulturalAdapter._should_use_llm_adaptation, hcfg, hen, hp]
  have hsname : CulturalAdapter._get_strategy_name a = lcfg.strategy.value := by
    simp [CulturalAdapter._get_strategy_name, hcfg]
  obtain ⟨msg, hmsg⟩ := hfail
    (CulturalAdapter._build_llm_adaptation_prompt a po template formality)
    { temperature := lcfg.temperature, max_tokens := lcfg.max_tokens }
  have happly : CulturalAdapter._apply_llm_adaptation a lcfg p po template formality =
      .error msg := by
    simp only [CulturalAdapter._apply_llm_adaptation]
    rw [hmsg]
    rfl
  refine ⟨?_, hsname⟩
  simp only [CulturalAdapter.adapt, hpo, except_bind_ok, hshould, hcfg, hp, happly,
    if_true, hsname]

/-- C1 witness: the amended behaviour at the concrete German hybrid adapter
with the always-raising provider. -/
theorem C1_witness :
    CulturalAdapter.adapt de_hybrid_failing_adapter sample_template .formal [] =
      .ok { template_id := sample_template.id
            language := de_hybrid_failing_adapter.language_code
            formality := .formal
            adapted_content :=
              GermanAdapter._apply_programmatic_adaptations de_hybrid_failing_adapter
                sample_template .formal
            adaptation_notes :=
              CulturalAdapter._build_adaptation_notes de_hybrid_failing_adapter
                ("programmatic_fallback".data) sample_template .formal
            timestamp := []
            metadata := [("strategy".data, hybrid_llm_config.strategy.value)] } ∧
    CulturalAdapter._get_strategy_name de_hybrid_failing_adapter =
      hybrid_llm_config.strategy.value :=
  C1_fallback_behavior de_hybrid_failing_adapter hybrid_llm_config failing_provider
    sample_template .formal []
    (GermanAdapter._apply_programmatic_adaptations de_hybrid_failing_adapter
      sample_template .formal)
    rfl rfl rfl (fun _ _ => ⟨"API call failed".data, rfl⟩) rfl

/-- Occurrences survive prepending text. -/
theorem occ_append_left {t s : Str} (pre : Str) (h : t <:+: s) : t <:+: pre ++ s := by
  obtain ⟨l, r, rfl⟩ := h
  exact ⟨pre ++ l, r, by simp⟩

/-- Occurrences survive appending text. -/
theorem occ_append_right {t s : Str} (post : Str) (h : t <:+: s) : t <:+: s ++ post := by
  obtain ⟨l, r, rfl⟩ := h
  exact ⟨l, r ++ post, by simp⟩

/-- An occurrence of a string headed by a character absent from `pre` lies
entirely beyond `pre`. -/
theorem occ_skip_front {c0 : Char} {t' pre s : Str} (hpre : c0 ∉ pre)
    (h : (c0 :: t') <:+: pre ++ s) : (c0 :: t') <:+: s := by
  induction pre with
  | nil => simpa using h
  | cons x xs ih =>
    rw [List.cons_append] at h
    rcases List.infix_cons_iff.mp h with hpref | hinf
    · obtain ⟨he, -⟩ := List.cons_prefix_cons.mp hpref
      rw [← he] at hpre
      exact absurd (List.mem_cons_self _ _) hpre
    · exact ih (fun hm => hpre (List.mem_cons_of_mem _ hm)) hinf

/-- Placeholder tokens survive the English formal transformation (lower-casing
the first character and prepending a politeness marker). -/
theorem occ_token_please {k : Str} {c : Char} {rest : Str}
    (h : placeholder_token k <:+: c :: rest) :
    placeholder_token k <:+: "Please ".data ++ pyLower c :: rest := by
  rcases List.infix_cons_iff.mp h with hpref | hinf
  · have he : '{' = c := (List.cons_prefix_cons.mp hpref).1
    have hlc : pyLower c = c := by
      rw [← he]
      decide
    rw [hlc]
    exact occ_append_left _ hpref.isInfix
  · have h2 : placeholder_token k <:+: ("Please ".data ++ [pyLower c]) ++ rest :=
      occ_append_left _ hinf
    simpa using h2

/-- Phase-1 programmatic adaptation preserves every placeholder token of the
template content, for each of the three language strategies. -/
theorem programmatic_preserves_tokens (a : CulturalAdapter) (template : PromptTemplate)
    (formality : FormalityLevel) (po : Str) (k : Str)
    (hpo : CulturalAdapter._apply_programmatic_adaptations a template formality = .ok po)
    (hk : placeholder_token k <:+: template.content) :
    placeholder_token k <:+: po := by
  have hcons : placeholder_token k = '{' :: (k ++ ['}']) := rfl
  cases hlang : a.lang with
  | de =>
    rw [CulturalAdapter._apply_programmatic_adaptations, hlang] at hpo
    have hpo' : GermanAdapter._apply_programmatic_adaptations a template formality = po :=
      Except.ok.inj hpo
    rw [← hpo']
    unfold GermanAdapter._apply_programmatic_adaptations
    refine occ_append_right _ (occ_append_left _ ?_)
    rw [← List.singleton_append]
    exact occ_append_left _ hk
  | es =>
    rw [CulturalAdapter._apply_programmatic_adaptations, hlang] at hpo
    have hpo' : SpanishAdapter._apply_programmatic_adaptations a template formality = po :=
      Except.ok.inj hpo
    rw [← hpo']
    unfold SpanishAdapter._apply_programmatic_adaptations
    refine occ_append_right _ (occ_append_right _ (occ_append_left _ ?_))
    rw [← List.singleton_append]
    exact occ_append_left _ hk
  | en =>
    rw [CulturalAdapter._apply_programmatic_adaptations, hlang] at hpo
    unfold EnglishAdapter._apply_programmatic_adaptations at hpo
    dsimp only at hpo
    cases formality with
    | formal =>
      by_cases hstart : en_formal_marker_start template.content
      · rw [if_pos hstart] at hpo
        rw [← Except.ok.inj hpo]
        exact hk
      · rw [if_neg hstart] at hpo
        cases hc : template.content with
        | nil =>
          rw [hc] at hpo
          exact absurd hpo (by simp [str_lower])
        | cons c rest =>
          rw [hc] at hpo
          have hred : str_lower (c :: rest) = pyLower c :: str_lower rest := rfl
          rw [hred] at hpo
          have : "Please ".data ++ pyLower c :: (c :: rest).drop 1 = po := Except.ok.inj hpo
          rw [← this]
          have hk' : placeholder_token k <:+: c :: rest := hc ▸ hk
          simpa using occ_token_please hk'
    | casual =>
      by_cases hplease : ("Please ".data) <+: template.content
      · rw [if_pos hplease] at hpo
        obtain ⟨tl, htl⟩ := hplease
        have hdrop : template.content.drop 7 = tl := by
          rw [← htl]
          exact List.drop_left "Please ".data tl
        rw [← Except.ok.inj hpo, hdrop]
        rw [hcons] at hk ⊢
        have hocc : ('{' :: (k ++ ['}'])) <:+: "Please ".data ++ tl := by
          rw [htl]
          exact hk
        exact occ_skip_front (by decide) hocc
      · rw [if_neg hplease] at hpo
        rw [← Except.ok.inj hpo]
        exact hk
    | neutral =>
      rw [← Except.ok.inj hpo]
      exact hk

/-- C2 counterexample: on the hybrid path the adapted content is whatever the
provider returned; a provider that answers with placeholder-free text yields a
variant that drops the template's `{name}` token. -/
theorem C2_counterexample :
    placeholder_token ("name".data) <:+: c2cx_template.content ∧
    (CulturalAdapter.adapt es_hybrid_junk_adapter c2cx_template .formal []).map
        (fun v => v.adapted_content) = .ok ("LLM OUTPUT".data) ∧
    ¬ placeholder_token ("name".data) <:+: ("LLM OUTPUT".data) := by
  refine ⟨by decide, rfl, by decide⟩

/-- C2 (amended): whenever `adapt` returns a variant produced without a
successful LLM refinement — the refinement is not configured/enabled, no
provider is attached, or the attached provider's `generate` always raises —
every `{placeholder}` token of the source template content occurs verbatim in
the variant's `adapted_content`.  On a successful hybrid refinement the
content is the provider's output and carries no such guarantee. -/
theorem C2_placeholder_preservation (a : CulturalAdapter) (template : PromptTemplate)
    (formality : FormalityLevel) (now : Str) (v : PromptVariant) (k : Str)
    (hnollm : CulturalAdapter._should_use_llm_adaptation a = false ∨
      ∀ p, a.provider = some p → ∀ s c, ∃ msg, p.generate s c = .error msg)
    (hv : CulturalAdapter.adapt a template formality now = .ok v)
    (hk : placeholder_token k <:+: template.content) :
    placeholder_token k <:+: v.adapted_content := by
  cases hpo : CulturalAdapter._apply_programmatic_adaptations a template formality with
  | error msg =>
    rw [CulturalAdapter.adapt, hpo, except_bind_error] at hv
    exact Except.noConfusion hv
  | ok po =>
    have hpres := programmatic_preserves_tokens a template formality po k hpo hk
    rw [CulturalAdapter.adapt, hpo, except_bind_ok] at hv
    by_cases hshould : CulturalAdapter._should_use_llm_adaptation a = true
    · rcases hnollm with hfalse | hfail
      · rw [hfalse] at hshould
        exact Bool.noConfusion hshould
      · cases hc : a.llm_adaptation_config with
        | none =>
          rw [CulturalAdapter._should_use_llm_adaptation, hc] at hshould
          exact Bool.noConfusion hshould
        | some lcfg =>
          cases hp : a.provider with
          | none =>
            rw [CulturalAdapter._should_use_llm_adaptation, hc, hp] at hshould
            simp at hshould
          | some p =>
            obtain ⟨msg, hmsg⟩ := hfail p hp
              (CulturalAdapter._build_llm_adaptation_prompt a po template formality)
              { temperature := lcfg.temperature, max_tokens := lcfg.max_tokens }
            have happly : CulturalAdapter._apply_llm_adaptation a lcfg p po template formality =
                .error msg := by
              simp only [CulturalAdapter._apply_llm_adaptation]
              rw [hmsg]
              rfl
            rw [hshould] at hv
            simp only [hc, hp, happly, if_true] at hv
            rw [← Except.ok.inj hv]
            exact hpres
    · have hfalse : CulturalAdapter._should_use_llm_adaptation a = false :=
        Bool.eq_false_iff.mpr hshould
      rw [hfalse] at hv
      simp only [Bool.false_eq_true, if_false] at hv
      rw [← Except.ok.inj hv]
      exact hpres

/-- C2 witness: preservation at the English adapter, casual formality, on a
template containing `{name}`. -/
theorem C2_witness :
    placeholder_token ("name".data) <:+:
      (PromptVariant.adapted_content
        { template_id := "t1".data
          language := "en".data
          formality := .casual
          adapted_content := "Summarize \x7bname\x7d for me.".data
          adaptation_notes :=
            CulturalAdapter._build_adaptation_notes en_adapter ("programmatic".data)
              c2cx_template .casual
          timestamp := []
          metadata := [("strategy".data, "programmatic_only".data)] }) :=
  C2_placeholder_preservation en_adapter c2cx_template .casual [] _ ("name".data)
    (Or.inl rfl) rfl (by decide)

/-- A prefix that stops before a character it does not contain. -/
theorem prefix_stop_at {t a b : Str} {c : Char} (hc : c ∉ t) (h : t <+: a ++ c :: b) :
    t <+: a := by
  induction t generalizing a with
  | nil => exact List.nil_prefix
  | cons y t' ih =>
    cases a with
    | nil =>
      obtain ⟨he, -⟩ := List.cons_prefix_cons.mp (by simpa using h)
      rw [he] at hc
      exact absurd (List.mem_cons_self _ _) hc
    | cons x a' =>
      obtain ⟨he, h'⟩ := List.cons_prefix_cons.mp (by simpa using h)
      subst he
      exact List.cons_prefix_cons.mpr
        ⟨rfl, ih (fun hm => hc (List.mem_cons_of_mem _ hm)) h'⟩

/-- An occurrence inside `a ++ c :: b` avoiding `c` lies wholly in `a` or
wholly in `b`. -/
theorem occ_split_at {t a b : Str} {c : Char} (hc : c ∉ t) (h : t <:+: a ++ c :: b) :
    t <:+: a ∨ t <:+: b := by
  induction a with
  | nil =>
    rcases List.infix_cons_iff.mp (by simpa using h) with hp | hi
    · cases t with
      | nil => exact Or.inl ⟨[], [], rfl⟩
      | cons y t' =>
        obtain ⟨he, -⟩ := List.cons_prefix_cons.mp hp
        rw [he] at hc
        exact absurd (List.mem_cons_self _ _) hc
    · exact Or.inr hi
  | cons x a' ih =>
    rw [List.cons_append] at h
    rcases List.infix_cons_iff.mp h with hp | hi
    · have hp' : t <+: (x :: a') ++ c :: b := by simpa using hp
      exact Or.inl (prefix_stop_at hc hp').isInfix
    · rcases ih hi with h1 | h2
      · exact Or.inl (List.infix_cons_iff.mpr (Or.inr h1))
      · exact Or.inr h2

/-- A phrase without newlines that occurs in neither the casual greeting, the
casual scaffold line, the template content, nor the casual closing cannot
occur in the Spanish casual programmatic output. -/
theorem casual_es_no_phrase (a : CulturalAdapter) (template : PromptTemplate) (t : Str)
    (hnl : '\n' ∉ t) (hne : t ≠ [])
    (hq : ¬ t <:+: ("¿Qué tal? Te escribo porque:".data))
    (hg : ¬ t <:+: CulturalAdapter._get_greeting a .casual)
    (hcont : ¬ t <:+: template.content)
    (hcl : ¬ t <:+: CulturalAdapter._get_closing a .casual) :
    ¬ t <:+: SpanishAdapter._apply_programmatic_adaptations a template .casual := by
  intro hocc
  have hshape : SpanishAdapter._apply_programmatic_adaptations a template .casual =
      (if (CulturalAdapter._get_greeting a .casual).isEmpty then []
        else CulturalAdapter._get_greeting a .casual) ++
      '\n' :: ('\n' :: (("¿Qué tal? Te escribo porque:".data) ++
        '\n' :: (template.content ++
          (if (CulturalAdapter._get_closing a .casual).isEmpty then []
            else '\n' :: CulturalAdapter._get_closing a .casual)))) := by
    unfold SpanishAdapter._apply_programmatic_adaptations
    simp
  rw [hshape] at hocc
  rcases occ_split_at hnl hocc with hA | hB
  · by_cases hge : (CulturalAdapter._get_greeting a .casual).isEmpty
    · rw [if_pos hge] at hA
      exact hne ((List.sublist_nil.mp hA.sublist))
    · rw [if_neg hge] at hA
      exact hg hA
  · have hB' : t <:+: ([] : Str) ++ '\n' :: (("¿Qué tal? Te escribo porque:".data) ++
        '\n' :: (template.content ++
          (if (CulturalAdapter._get_closing a .casual).isEmpty then []
            else '\n' :: CulturalAdapter._get_closing a .casual))) := by
      simpa using hB
    rcases occ_split_at hnl hB' with hB1 | hB2
    · exact hne ((List.sublist_nil.mp hB1.sublist))
    · rcases occ_split_at hnl hB2 with hQ | hC
      · exact hq hQ
      · by_cases hcle : (CulturalAdapter._get_closing a .casual).isEmpty
        · rw [if_pos hcle, List.append_nil] at hC
          exact hcont hC
        · rw [if_neg hcle] at hC
          rcases occ_split_at hnl hC with hC1 | hC2
          · exact hcont hC1
          · exact hcl hC2

/-- C9 counterexample: a template whose content already contains the
well-being inquiry phrase makes the casual Spanish output contain it too, so
the absence half of the claim fails for that template. -/
theorem C9_counterexample :
    ("Espero que se encuentre bien.".data) <:+:
      SpanishAdapter._apply_programmatic_adaptations es_adapter c9cx_template .casual := by
  decide

/-- C9 (amended): for every Spanish adapter configuration and template, the
formal programmatic output contains the well-being inquiry and the proactive
gratitude phrase; and provided neither phrase occurs in the template content
nor in the configured casual greeting or closing, the casual output for the
same template contains neither. -/
theorem C9_spanish_formal_phrases (a : CulturalAdapter) (template : PromptTemplate)
    (h1 : ¬ wellbeing_phrase <:+: CulturalAdapter._get_greeting a .casual)
    (h2 : ¬ wellbeing_phrase <:+: template.content)
    (h3 : ¬ wellbeing_phrase <:+: CulturalAdapter._get_closing a .casual)
    (h4 : ¬ gratitude_phrase <:+: CulturalAdapter._get_greeting a .casual)
    (h5 : ¬ gratitude_phrase <:+: template.content)
    (h6 : ¬ gratitude_phrase <:+: CulturalAdapter._get_closing a .casual) :
    (wellbeing_phrase <:+: SpanishAdapter._apply_programmatic_adaptations a template .formal ∧
      gratitude_phrase <:+: SpanishAdapter._apply_programmatic_adaptations a template .formal) ∧
    (¬ wellbeing_phrase <:+: SpanishAdapter._apply_programmatic_adaptations a template .casual ∧
      ¬ gratitude_phrase <:+: SpanishAdapter._apply_programmatic_adaptations a template .casual) := by
  constructor
  · unfold SpanishAdapter._apply_programmatic_adaptations
    constructor
    · refine occ_append_right _ (occ_append_right _ (occ_append_right _ (occ_append_left _ ?_)))
      decide
    · refine occ_append_right _ (occ_append_left _ ?_)
      decide
  · exact ⟨casual_es_no_phrase a template wellbeing_phrase (by decide) (by decide)
        (by decide) h1 h2 h3,
      casual_es_no_phrase a template gratitude_phrase (by decide) (by decide)
        (by decide) h4 h5 h6⟩

/-- C9 witness: the concrete Spanish configuration and sample template. -/
theorem C9_witness :
    (wellbeing_phrase <:+:
        SpanishAdapter._apply_programmatic_adaptations es_adapter sample_template .formal ∧
      gratitude_phrase <:+:
        SpanishAdapter._apply_programmatic_adaptations es_adapter sample_template .formal) ∧
    (¬ wellbeing_phrase <:+:
        SpanishAdapter._apply_programmatic_adaptations es_adapter sample_template .casual ∧
      ¬ gratitude_phrase <:+:
        SpanishAdapter._apply_programmatic_adaptations es_adapter sample_template .casual) :=
  C9_spanish_formal_phrases es_adapter sample_template (by decide) (by decide) (by decide)
    (by decide) (by decide) (by decide)

/-- Membership form of `brace_free`. -/
theorem brace_free_iff {s : Str} : brace_free s = true ↔ ('{' ∉ s ∧ '}' ∉ s) := by
  unfold brace_free
  rw [List.all_eq_true]
  constructor
  · intro h
    constructor
    · intro hm
      have hx := h _ hm
      simp at hx
    · intro hm
      have hx := h _ hm
      simp at hx
  · rintro ⟨h1, h2⟩ c hc
    have hc1 : c ≠ '{' := fun he => h1 (he ▸ hc)
    have hc2 : c ≠ '}' := fun he => h2 (he ▸ hc)
    simp [hc1, hc2]

/-- The replace scanner walks over a brace-free piece of text unchanged. -/
theorem replaceAux_skip_clean {ps rep s : Str} (pre : Str) (hpre : '{' ∉ pre) :
    replaceAux '{' ps rep (pre ++ s) = pre ++ replaceAux '{' ps rep s := by
  induction pre with
  | nil => rfl
  | cons x xs ih =>
    rw [List.cons_append, replaceAux]
    have hx : ¬ ((('{' :: ps) : Str).isPrefixOf (x :: (xs ++ s)) = true) := by
      intro hp
      obtain ⟨he, -⟩ := List.cons_prefix_cons.mp (List.isPrefixOf_iff_prefix.mp hp)
      apply hpre
      rw [he]
      exact List.mem_cons_self x xs
    rw [if_neg hx, ih (fun hm => hpre (List.mem_cons_of_mem _ hm))]
    rfl

/-- The replace scanner rewrites an exact `{k}` token at the front. -/
theorem replaceAux_token_match {k rep s : Str} :
    replaceAux '{' (k ++ ['}']) rep (('{' :: (k ++ ['}'])) ++ s) =
      rep ++ replaceAux '{' (k ++ ['}']) rep s := by
  rw [List.cons_append, replaceAux]
  have hcond : ((('{' :: (k ++ ['}']))) : Str).isPrefixOf ('{' :: ((k ++ ['}']) ++ s)) = true :=
    List.isPrefixOf_iff_prefix.mpr
      (List.cons_prefix_cons.mpr ⟨rfl, List.prefix_append _ _⟩)
  rw [if_pos hcond, List.drop_left]

/-- A key token `{k}` cannot start inside a different key's token: the closing
brace would have to occur inside one of the brace-free keys. -/
theorem key_token_mismatch {k k' s : Str} (hkb : '}' ∉ k) (hk'b : '}' ∉ k')
    (hne : k ≠ k') : ¬ ((k ++ ['}']) <+: (k' ++ '}' :: s)) := by
  induction k generalizing k' with
  | nil =>
    cases k' with
    | nil => exact absurd rfl hne
    | cons y k'' =>
      intro hp
      rw [List.nil_append, List.cons_append] at hp
      obtain ⟨he, -⟩ := List.cons_prefix_cons.mp hp
      apply hk'b
      rw [← he]
      exact List.mem_cons_self _ _
  | cons x kk ih =>
    cases k' with
    | nil =>
      intro hp
      rw [List.cons_append, List.nil_append] at hp
      obtain ⟨he, -⟩ := List.cons_prefix_cons.mp hp
      apply hkb
      rw [he]
      exact List.mem_cons_self _ _
    | cons y k'' =>
      intro hp
      rw [List.cons_append, List.cons_append] at hp
      obtain ⟨he, hp'⟩ := List.cons_prefix_cons.mp hp
      subst he
      exact ih (fun hm => hkb (List.mem_cons_of_mem _ hm))
        (fun hm => hk'b (List.mem_cons_of_mem _ hm))
        (fun hEq => hne (by rw [hEq])) hp'

/-- The replace scanner copies a different key's token `{k'}` verbatim. -/
theorem replaceAux_token_skip {k k' rep s : Str} (hkb : '}' ∉ k)
    (hk'l : '{' ∉ k') (hk'r : '}' ∉ k') (hne : k ≠ k') :
    replaceAux '{' (k ++ ['}']) rep (('{' :: (k' ++ ['}'])) ++ s) =
      ('{' :: (k' ++ ['}'])) ++ replaceAux '{' (k ++ ['}']) rep s := by
  rw [List.cons_append, replaceAux]
  have hcond : ¬ ((('{' :: (k ++ ['}']))) : Str).isPrefixOf
      ('{' :: ((k' ++ ['}']) ++ s)) = true := by
    intro hp
    obtain ⟨-, hp'⟩ := List.cons_prefix_cons.mp (List.isPrefixOf_iff_prefix.mp hp)
    have hp'' : (k ++ ['}']) <+: (k' ++ '}' :: s) := by simpa using hp'
    exact key_token_mismatch hkb hk'r hne hp''
  rw [if_neg hcond, List.append_assoc, replaceAux_skip_clean k' hk'l,
    replaceAux_skip_clean ['}'] (by decide)]
  simp

/-- Replacing the token of key `k` on well-shaped text substitutes exactly the
`ph k` segments and copies everything else. -/
theorem replaceAux_segs (k rep : Str) (hkl : '{' ∉ k) (hkr : '}' ∉ k)
    (segs : List TemplateSeg)
    (hlit : ∀ s, TemplateSeg.lit s ∈ segs → '{' ∉ s)
    (hph : ∀ k', TemplateSeg.ph k' ∈ segs → '{' ∉ k' ∧ '}' ∉ k') :
    replaceAux '{' (k ++ ['}']) rep (segs_text segs) =
      segs_text (segs.map (subst_seg k rep)) := by
  induction segs with
  | nil =>
    show replaceAux '{' (k ++ ['}']) rep [] = ([] : Str)
    rw [replaceAux]
  | cons seg rest ih =>
    have ihl : ∀ s, TemplateSeg.lit s ∈ rest → '{' ∉ s :=
      fun s hm => hlit s (List.mem_cons_of_mem _ hm)
    have ihp : ∀ k', TemplateSeg.ph k' ∈ rest → '{' ∉ k' ∧ '}' ∉ k' :=
      fun k' hm => hph k' (List.mem_cons_of_mem _ hm)
    cases seg with
    | lit s =>
      have hshape : segs_text (TemplateSeg.lit s :: rest) = s ++ segs_text rest := rfl
      have hshape2 : segs_text ((TemplateSeg.lit s :: rest).map (subst_seg k rep)) =
          s ++ segs_text (rest.map (subst_seg k rep)) := rfl
      rw [hshape, hshape2, replaceAux_skip_clean s (hlit s (List.mem_cons_self _ _)),
        ih ihl ihp]
    | ph k' =>
      have hshape : segs_text (TemplateSeg.ph k' :: rest) =
          ('{' :: (k' ++ ['}'])) ++ segs_text rest := rfl
      rw [hshape]
      by_cases hk : k' = k
      · subst hk
        have hshape2 : segs_text ((TemplateSeg.ph k' :: rest).map (subst_seg k' rep)) =
            rep ++ segs_text (rest.map (subst_seg k' rep)) := by
          simp [segs_text, subst_seg, TemplateSeg.text]
        rw [hshape2, replaceAux_token_match, ih ihl ihp]
      · have hk'b := hph k' (List.mem_cons_self _ _)
        have hshape2 : segs_text ((TemplateSeg.ph k' :: rest).map (subst_seg k rep)) =
            ('{' :: (k' ++ ['}'])) ++ segs_text (rest.map (subst_seg k rep)) := by
          simp [segs_text, subst_seg, TemplateSeg.text, hk]
        rw [hshape2, replaceAux_token_skip hkr hk'b.1 hk'b.2 (fun he => hk he.symm),
          ih ihl ihp]

/-- Text of segments that are well-formed over an empty key list is
brace-free. -/
theorem segs_text_no_brace (segs : List TemplateSeg) (h : segs_wf [] segs = true) :
    '{' ∉ segs_text segs ∧ '}' ∉ segs_text segs := by
  induction segs with
  | nil => exact ⟨by simp [segs_text], by simp [segs_text]⟩
  | cons seg rest ih =>
    rw [segs_wf, List.all_eq_true] at h
    have hseg := h seg (List.mem_cons_self _ _)
    have hrest : segs_wf [] rest = true := by
      rw [segs_wf, List.all_eq_true]
      exact fun x hx => h x (List.mem_cons_of_mem _ hx)
    obtain ⟨ih1, ih2⟩ := ih hrest
    cases seg with
    | lit s =>
      obtain ⟨hs1, hs2⟩ := brace_free_iff.mp hseg
      have hshape : segs_text (TemplateSeg.lit s :: rest) = s ++ segs_text rest := rfl
      rw [hshape]
      constructor
      · intro hm
        rcases List.mem_append.mp hm with hm | hm
        · exact hs1 hm
        · exact ih1 hm
      · intro hm
        rcases List.mem_append.mp hm with hm | hm
        · exact hs2 hm
        · exact ih2 hm
    | ph kk =>
      rw [seg_ok] at hseg
      simp at hseg

/-- Folding the per-key replacements of `render` over well-shaped content and
brace-free keys/values leaves no brace character at all. -/
theorem render_fold_no_brace (values : List (Str × Str)) :
    ∀ segs : List TemplateSeg,
      segs_wf (values.map Prod.fst) segs = true →
      (∀ kv ∈ values, brace_free kv.2 = true ∧ '{' ∉ kv.1 ∧ '}' ∉ kv.1) →
      '{' ∉ values.foldl
          (fun rendered kv => pyReplace rendered ('{' :: (kv.1 ++ ['}'])) kv.2)
          (segs_text segs) ∧
      '}' ∉ values.foldl
          (fun rendered kv => pyReplace rendered ('{' :: (kv.1 ++ ['}'])) kv.2)
          (segs_text segs) := by
  induction values with
  | nil =>
    intro segs hwf _
    exact segs_text_no_brace segs hwf
  | cons kv vs ih =>
    intro segs hwf hvals
    have hv0 := hvals kv (List.mem_cons_self _ _)
    rw [segs_wf, List.all_eq_true] at hwf
    have hlit : ∀ s, TemplateSeg.lit s ∈ segs → '{' ∉ s := by
      intro s hm
      have hs := hwf _ hm
      rw [seg_ok] at hs
      exact (brace_free_iff.mp hs).1
    have hph : ∀ k', TemplateSeg.ph k' ∈ segs → '{' ∉ k' ∧ '}' ∉ k' := by
      intro k' hm
      have hs := hwf _ hm
      rw [seg_ok, Bool.and_eq_true] at hs
      exact brace_free_iff.mp hs.2
    have hstep : pyReplace (segs_text segs) ('{' :: (kv.1 ++ ['}'])) kv.2 =
        segs_text (segs.map (subst_seg kv.1 kv.2)) :=
      replaceAux_segs kv.1 kv.2 hv0.2.1 hv0.2.2 segs hlit hph
    have hwf' : segs_wf (vs.map Prod.fst) (segs.map (subst_seg kv.1 kv.2)) = true := by
      rw [segs_wf, List.all_eq_true]
      intro seg' hm'
      obtain ⟨seg, hm, rfl⟩ := List.mem_map.mp hm'
      have hs := hwf _ hm
      cases seg with
      | lit s => exact hs
      | ph k' =>
        by_cases hkk : k' = kv.1
        · simp only [subst_seg, if_pos hkk, seg_ok]
          exact hv0.1
        · simp only [subst_seg, if_neg hkk, seg_ok]
          rw [seg_ok, Bool.and_eq_true] at hs
          obtain ⟨hmem, hbf⟩ := hs
          have hmem' : k' ∈ List.map Prod.fst (kv :: vs) := of_decide_eq_true hmem
          rw [List.map_cons] at hmem'
          have hmem'' : k' ∈ vs.map Prod.fst := by
            rcases List.mem_cons.mp hmem' with h | h
            · exact absurd h hkk
            · exact h
          rw [Bool.and_eq_true]
          exact ⟨decide_eq_true hmem'', hbf⟩
    have hvals' : ∀ kv' ∈ vs, brace_free kv'.2 = true ∧ '{' ∉ kv'.1 ∧ '}' ∉ kv'.1 :=
      fun kv' hm => hvals kv' (List.mem_cons_of_mem _ hm)
    rw [List.foldl_cons, hstep]
    exact ih (segs.map (subst_seg kv.1 kv.2)) hwf' hvals'

/-- C4 (amended): for a template whose content decomposes into brace-free
literal pieces and placeholder tokens over the merged key set, with all merged
keys and substitution values brace-free, the rendered prompt contains no brace
at all — in particular no literal `{key}` substring for any key of the merged
mapping.  Without those shape conditions the claim fails: a substitution value
can reintroduce a token. -/
theorem C4_render_no_tokens (t : PromptTemplate) (kwargs : List (Str × Str))
    (segs : List TemplateSeg)
    (hcontent : t.content = segs_text segs)
    (hwf : segs_wf ((pyDictMerge t.placeholders kwargs).map Prod.fst) segs = true)
    (hvals : ∀ kv ∈ pyDictMerge t.placeholders kwargs,
      brace_free kv.2 = true ∧ '{' ∉ kv.1 ∧ '}' ∉ kv.1) :
    ∀ k, k ∈ (pyDictMerge t.placeholders kwargs).map Prod.fst →
      ¬ placeholder_token k <:+: PromptTemplate.render t kwargs := by
  intro k hk hocc
  have hnb := render_fold_no_brace (pyDictMerge t.placeholders kwargs) segs hwf hvals
  have hrender : PromptTemplate.render t kwargs =
      (pyDictMerge t.placeholders kwargs).foldl
        (fun rendered kv => pyReplace rendered ('{' :: (kv.1 ++ ['}'])) kv.2)
        (segs_text segs) := by
    rw [PromptTemplate.render, hcontent]
  rw [hrender] at hocc
  exact hnb.1 (hocc.subset (List.mem_cons_self '{' (k ++ ['}'])))

/-- C4 counterexample: a placeholder whose default value is its own token
survives rendering, so the rendered text still contains `{a}` although `a` is
a key of the placeholder mapping. -/
theorem C4_counterexample :
    placeholder_token ("a".data) <:+: PromptTemplate.render self_token_template [] ∧
    (self_token_template.placeholders).map Prod.fst = [("a".data)] := by
  constructor
  · have h1 : PromptTemplate.render self_token_template [] =
        replaceAux '{' ("a".data ++ ['}']) ("\x7ba\x7d".data)
          (('{' :: ("a".data ++ ['}'])) ++ []) := rfl
    have h2 := @replaceAux_token_match ("a".data) ("\x7ba\x7d".data) []
    have h3 : replaceAux '{' ("a".data ++ ['}']) ("\x7ba\x7d".data) [] = [] := by
      rw [replaceAux]
    rw [h1, h2, h3]
    decide
  · rfl

/-- C4 witness: the amended statement at a concrete well-shaped template. -/
theorem C4_witness :
    ¬ placeholder_token ("name".data) <:+: PromptTemplate.render c4_witness_template [] :=
  C4_render_no_tokens c4_witness_template [] c4_witness_segs (by decide) (by decide)
    (by decide) ("name".data) (by decide)
